import Mathlib

/-!
Verification of the PLATEX compile-and-preview pipeline (src/app/main.py).

The development shallowly embeds the compile pipeline of the editor:
the state fields of EditorWindow that the pipeline touches, the
save_file method, the _detect_compiler / _install_toolchain locator,
the compile_pdf controller, the error-log line extraction of
_show_compile_errors / _mark_error_lines, and the live-preview
debounce timer. External effects (file writes, subprocess launches,
dialogs, status messages) are recorded in an explicit effect trace;
the outside world (PATH lookups, subprocess outcomes, filesystem
checks) is an explicit environment value.
-/

namespace PLATEX

/-- A filesystem path, as the list of its components
(pathlib.Path in the source). -/
structure Path where
  parts : List String
deriving DecidableEq, Repr

/-- The final component of the path (pathlib .name). -/
def Path.name (p : Path) : String := (p.parts.getLast?).getD ""

/-- The containing directory (pathlib .parent). -/
def Path.parent (p : Path) : Path := ⟨p.parts.dropLast⟩

/-- Path joining with a single component (the / operator of pathlib). -/
def Path.join (p : Path) (s : String) : Path := ⟨p.parts ++ [s]⟩

/-- Rendering of the path as a string (str(path) in the source). -/
def Path.str (p : Path) : String := String.intercalate "/" p.parts

/-- Index of the last dot of a component name, if any. -/
def lastDotIndex (cs : List Char) : Option Nat :=
  match cs.reverse.findIdx? (· == '.') with
  | some j => some (cs.length - 1 - j)
  | none => none

/-- CPython pathlib suffix replacement on a single component name:
the suffix starts at the last dot, provided that dot is neither the
first nor past the last character; otherwise the new suffix is
appended. -/
def nameWithSuffix (name suffix : String) : String :=
  let cs := name.toList
  match lastDotIndex cs with
  | some k =>
      if 0 < k ∧ k < cs.length - 1 then String.mk (cs.take k) ++ suffix
      else name ++ suffix
  | none => name ++ suffix

/-- pathlib with_suffix on the final component. -/
def Path.withSuffix (p : Path) (suffix : String) : Path :=
  ⟨p.parts.dropLast ++ [nameWithSuffix p.name suffix]⟩

/-- Whether the first list is a leading segment of the second. -/
def leadsList : List Char → List Char → Bool
  | [], _ => true
  | _ :: _, [] => false
  | a :: as, b :: bs => a == b && leadsList as bs

/-- Whether sub occurs contiguously inside s (the Python in operator
on strings, for a nonempty needle). -/
def charsContain (sub : List Char) : List Char → Bool
  | [] => sub.isEmpty
  | c :: rest => leadsList sub (c :: rest) || charsContain sub rest

/-- String containment test used for the latexmk check at line 1014. -/
def strContainsSub (s sub : String) : Bool := charsContain sub.toList s.toList

/-- ASCII lowercase of one character. -/
def asciiLowerChar (c : Char) : Char :=
  if 'A' ≤ c ∧ c ≤ 'Z' then Char.ofNat (c.toNat + 32) else c

/-- str.lower() of line 1012; the executable basenames involved are
ASCII, where Python lower agrees with ASCII lowercasing. -/
def asciiLower (s : String) : String := String.mk (s.toList.map asciiLowerChar)

/-- The in-memory filesystem: an association list from paths to whole
file contents, newest write first. -/
abbrev FS : Type := List (Path × String)

/-- Whole-file overwrite. -/
def FS.write (fs : FS) (p : Path) (text : String) : FS := (p, text) :: fs

/-- File content lookup. -/
def FS.read : FS → Path → Option String
  | [], _ => none
  | (q, s) :: rest, p => if q = p then some s else FS.read rest p

/-- The observable side effects of the pipeline, in program order. -/
inductive Effect where
  /-- base.mkdir(parents=True, exist_ok=True), line 982. -/
  | mkdir (p : Path)
  /-- A successful whole-file write of the editor text, lines 960-961. -/
  | fileWrite (p : Path) (text : String)
  /-- One shutil.which lookup of a candidate executable. -/
  | whichQuery (exe : String)
  /-- One best-effort installer subprocess of _install_toolchain. -/
  | runInstall (argv : List String)
  /-- The compiler subprocess launch of line 1018: argv, working
  directory, and the on-disk content of the tex file it reads. -/
  | run (argv : List String) (cwd : Path) (texContent : Option String)
  /-- A passive status-bar message (QStatusBar.showMessage). -/
  | showMessage (msg : String)
  /-- A blocking dialog (QMessageBox), by title and message. -/
  | messageBox (title : String) (msg : String)
  /-- _clear_error_marks, line 1041. -/
  | clearErrors
  /-- _load_preview handoff of the artifact, line 1042. -/
  | loadPreview (p : Path)
  /-- _show_compile_errors pane fill with the captured log, line 1061. -/
  | showErrors (log : String)
  /-- _mark_error_lines highlight request (0-indexed block numbers). -/
  | markErrors (lines : List Nat)
deriving DecidableEq, Repr

/-- The mutable EditorWindow fields the compile pipeline touches
(lines 361-365). -/
structure EditorState where
  currentFile : Option Path
  projectRoot : Option Path
  lastPdfOutput : Option Path
  is_compiling : Bool
  /-- editor.toPlainText(): the in-memory document text. -/
  editorText : String
deriving DecidableEq, Repr

/-- Host platform, per the sys.platform branches of the source. -/
inductive Platform where
  | windows
  | darwin
  | linux
deriving DecidableEq, Repr

/-- Outcome of the compiler subprocess call at lines 1017-1037. -/
inductive RunOutcome where
  /-- Normal completion with a return code and captured output. -/
  | completed (returncode : Int) (stdout : String)
  /-- subprocess.TimeoutExpired: the 60 second bound elapsed. -/
  | timeout
  /-- OSError when launching the compiler. -/
  | oserror
deriving DecidableEq, Repr

/-- The external world of one compile attempt: PATH lookups before and
after the install attempt, dialog answers, write success, the
subprocess outcome and the artifact existence check. -/
structure Env where
  homeDir : Path
  platform : Platform
  /-- The path picked in the save dialog, none if cancelled. -/
  saveDialog : Option Path
  /-- Whether the whole-file write of save_file succeeds (the OSError
  branch at line 964 models a failing write). -/
  writeOk : Bool
  /-- shutil.which before the install attempt. -/
  which : String → Option Path
  /-- shutil.which after the install attempt. -/
  whichAfter : String → Option Path
  runOutcome : RunOutcome
  /-- pdf_output.exists() after the subprocess returns, line 1039. -/
  pdfExists : Bool

/-- Result of one pipeline step: new state, new filesystem, effects. -/
structure StepResult where
  st : EditorState
  fs : FS
  trace : List Effect
deriving DecidableEq, Repr

/-- The fixed candidate order of _detect_compiler, line 1120. -/
def compilerCandidates : List String := ["latexmk", "pdflatex", "xelatex"]

/-- The shutil.which loop of _detect_compiler (lines 1119-1124):
candidates are queried in order, the first hit wins. -/
def detectGo (which : String → Option Path) : List String → Option Path × List Effect
  | [] => (none, [])
  | c :: rest =>
    match which c with
    | some p => (some p, [Effect.whichQuery c])
    | none => ((detectGo which rest).1, Effect.whichQuery c :: (detectGo which rest).2)

/-- _detect_compiler, lines 1119-1124. -/
def detect_compiler (which : String → Option Path) : Option Path × List Effect :=
  detectGo which compilerCandidates

/-- _install_toolchain, lines 1126-1166: a platform-conditional
best-effort install recipe followed by a fresh detection pass. -/
def install_toolchain (env : Env) : Option Path × List Effect :=
  let tr : List Effect :=
    match env.platform with
    | Platform.windows =>
      Effect.whichQuery "winget" ::
      (match env.which "winget" with
       | some _ =>
         [Effect.showMessage "Installing MiKTeX via winget…",
          Effect.runInstall ["winget", "install", "--id", "MiKTeX.MiKTeX", "-e",
            "--silent", "--accept-package-agreements", "--accept-source-agreements"],
          Effect.runInstall ["initexmf", "--mklinks", "--force"],
          Effect.runInstall ["mpm", "--admin", "--update-db"],
          Effect.runInstall ["mpm", "--admin", "--install=collection-latexrecommended"]]
       | none =>
         [Effect.messageBox "Install MiKTeX"
           "Please install MiKTeX from https://miktex.org/download to compile locally."])
    | Platform.darwin =>
      Effect.whichQuery "brew" ::
      (match env.which "brew" with
       | some _ =>
         [Effect.showMessage "Installing BasicTeX via Homebrew…",
          Effect.runInstall ["brew", "install", "--cask", "basictex"],
          Effect.runInstall ["sudo", "/Library/TeX/texbin/tlmgr", "option", "repository",
            "https://mirror.ctan.org/systems/texlive/tlnet"],
          Effect.runInstall ["sudo", "/Library/TeX/texbin/tlmgr", "update", "--self", "--all"],
          Effect.runInstall ["sudo", "/Library/TeX/texbin/tlmgr", "install", "latexmk"]]
       | none => [])
    | Platform.linux =>
      Effect.whichQuery "apt-get" ::
      (match env.which "apt-get" with
       | some _ =>
         [Effect.showMessage "Installing TeX Live (this may take a few minutes)…",
          Effect.runInstall ["sudo", "apt-get", "update"],
          Effect.runInstall ["sudo", "apt-get", "install", "-y", "texlive-full", "latexmk"]]
       | none => [])
  let det := detect_compiler env.whichAfter
  (det.1, tr ++ det.2)

/-- save_file, lines 944-965. With save_as or no current file the
dialog picks a path (abort on cancel); then the full editor text is
written to the current file, an OSError surfacing as a dialog. -/
def save_file (st : EditorState) (fs : FS) (env : Env) (save_as : Bool) :
    EditorState × FS × List Effect :=
  let picked : Option EditorState :=
    if save_as || st.currentFile.isNone then
      match env.saveDialog with
      | none => none
      | some p => some { st with currentFile := some p }
    else some st
  match picked with
  | none => (st, fs, [])
  | some st1 =>
    match st1.currentFile with
    | none => (st1, fs, [])
    | some path =>
      if env.writeOk then
        (st1, FS.write fs path st1.editorText,
          [Effect.fileWrite path st1.editorText,
           Effect.showMessage ("Saved to " ++ path.str)])
      else
        (st1, fs, [Effect.messageBox "Error" "Failed to save file"])

/-- The leftmost occurrence in a log line of the literal pattern l.
followed by at least one digit, returning the value of the maximal
digit run (re.search of line 1066, group 1 read by int at 1069). -/
def findLNum : List Char → Option Nat
  | [] => none
  | c :: rest =>
    match c, rest with
    | 'l', '.' :: rest2 =>
      let ds := rest2.takeWhile Char.isDigit
      if ds.isEmpty then findLNum rest
      else some (ds.foldl (fun a d => 10 * a + (d.toNat - 48)) 0)
    | _, _ => findLNum rest

/-- str.splitlines: split at line boundaries, the final fragment kept
only if nonempty. -/
def splitLinesAux : List Char → List Char → List (List Char)
  | [], acc => if acc.isEmpty then [] else [acc.reverse]
  | '\r' :: '\n' :: rest, acc => acc.reverse :: splitLinesAux rest []
  | '\n' :: rest, acc => acc.reverse :: splitLinesAux rest []
  | '\r' :: rest, acc => acc.reverse :: splitLinesAux rest []
  | c :: rest, acc => splitLinesAux rest (c :: acc)

/-- log.splitlines() of line 1065. -/
def pySplitlines (s : String) : List String :=
  (splitLinesAux s.toList []).map (fun cs => String.mk cs)

/-- The per-line scan of _show_compile_errors (lines 1064-1071): each
line with an l.N match contributes N. -/
def extractFromLines (lines : List String) : List Nat :=
  lines.filterMap (fun line => findLNum line.toList)

/-- Line numbers extracted from a captured log, 1-indexed. -/
def extractErrorLineNumbers (log : String) : List Nat :=
  extractFromLines (pySplitlines log)

/-- _mark_error_lines block numbers: max(0, n - 1) of line 1082,
which is truncating subtraction on Nat. -/
def markedLines (lines : List Nat) : List Nat := lines.map (fun n => n - 1)

/-- The argv built at lines 1012-1015: latexmk (substring test on the
lowercased basename) gets the -pdf -halt-on-error form, everything
else the plain nonstopmode form. Python Path objects are always
truthy, so line 1013 always passes tex_file.name. -/
def buildCompileCmd (command tex_file : Path) : List String :=
  let cmd_name := asciiLower (Path.name command)
  if strContainsSub cmd_name "latexmk" then
    [command.str, "-pdf", "-interaction=nonstopmode", "-halt-on-error", tex_file.name]
  else
    [command.str, "-interaction=nonstopmode", tex_file.name]

/-- compile_pdf, lines 976-1049: guard, default document path, save,
compiler resolution with install fallback, subprocess run, and the
success or failure branch. -/
def compile_pdf (st0 : EditorState) (fs0 : FS) (env : Env) (auto : Bool) : StepResult :=
  if st0.is_compiling then ⟨st0, fs0, []⟩ else
  let st1 : EditorState := { st0 with is_compiling := true }
  let step1 : EditorState × List Effect :=
    match st1.currentFile with
    | some _ => (st1, [])
    | none =>
      let base := st1.projectRoot.getD (env.homeDir.join "PLATEX")
      ({ st1 with currentFile := some (base.join "main.tex") }, [Effect.mkdir base])
  let sv := save_file step1.1 fs0 env false
  let st3 := sv.1
  let fs1 := sv.2.1
  let trA := step1.2 ++ sv.2.2
  match st3.currentFile with
  | none => ⟨st3, fs1, trA⟩
  | some tex_file =>
    let pdf_output := tex_file.withSuffix ".pdf"
    let st4 : EditorState := { st3 with lastPdfOutput := some pdf_output }
    let det := detect_compiler env.which
    let resolved : Option Path × List Effect :=
      match det.1 with
      | some c => (some c, trA ++ det.2)
      | none =>
        let inst := install_toolchain env
        (inst.1, trA ++ det.2 ++ [Effect.showMessage "Preparing LaTeX toolchain…"] ++ inst.2)
    match resolved.1 with
    | none =>
      ⟨{ st4 with is_compiling := false }, fs1,
        resolved.2 ++
          (if auto then [] else
            [Effect.messageBox "Compiler missing"
              "No LaTeX compiler was found or could be installed automatically."])⟩
    | some command =>
      let trB := resolved.2 ++ (if auto then [] else [Effect.showMessage "Compiling…"])
      let compile_cmd := buildCompileCmd command tex_file
      let trRun := trB ++ [Effect.run compile_cmd tex_file.parent (FS.read fs1 tex_file)]
      match env.runOutcome with
      | RunOutcome.timeout =>
        ⟨{ st4 with is_compiling := false }, fs1,
          trRun ++ (if auto then [] else
            [Effect.messageBox "Timeout" "Compilation took too long and was stopped."])⟩
      | RunOutcome.oserror =>
        ⟨{ st4 with is_compiling := false }, fs1,
          trRun ++ (if auto then [] else
            [Effect.messageBox "Error" "Failed to run compiler"])⟩
      | RunOutcome.completed rc out =>
        if rc = 0 ∧ env.pdfExists = true then
          ⟨{ st4 with is_compiling := false }, fs1,
            trRun ++ [Effect.showMessage "Compilation successful (preview refreshed)",
                      Effect.clearErrors, Effect.loadPreview pdf_output]⟩
        else
          let log := if out = "" then "Compilation failed without output" else out
          ⟨{ st4 with is_compiling := false }, fs1,
            trRun ++ [Effect.showErrors log,
                      Effect.markErrors (markedLines (extractErrorLineNumbers log)),
                      Effect.showMessage (if auto then "Live preview compile failed – see error pane"
                        else "Compilation failed – see error pane")]⟩

/-! ### Derived shape of one compile attempt

The helpers below restate the pieces of compile_pdf as total
functions of the initial state and the environment, and the master
lemma compile_pdf_eq proves that a non-guarded compile attempt is
exactly their composition. All claim proofs go through this shape. -/

/-- The document path a compile attempt works on: the current file,
or the default main.tex chosen at lines 980-983. -/
def docPath (st : EditorState) (env : Env) : Path :=
  match st.currentFile with
  | some p => p
  | none => (st.projectRoot.getD (env.homeDir.join "PLATEX")).join "main.tex"

/-- The directory receiving the default document (line 981). -/
def defaultBase (st : EditorState) (env : Env) : Path :=
  st.projectRoot.getD (env.homeDir.join "PLATEX")

/-- The mkdir effect of line 982, present only when no file was set. -/
def mkdirTrace (st : EditorState) (env : Env) : List Effect :=
  match st.currentFile with
  | some _ => []
  | none => [Effect.mkdir (defaultBase st env)]

/-- The effects of the save_file call at line 986. -/
def saveTrace (st : EditorState) (env : Env) : List Effect :=
  if env.writeOk then
    [Effect.fileWrite (docPath st env) st.editorText,
     Effect.showMessage ("Saved to " ++ (docPath st env).str)]
  else [Effect.messageBox "Error" "Failed to save file"]

/-- The filesystem after the save_file call at line 986. -/
def savedFs (st : EditorState) (fs : FS) (env : Env) : FS :=
  if env.writeOk then FS.write fs (docPath st env) st.editorText else fs

/-- Compiler resolution of lines 991-994: a fresh detection pass, and
on failure the install attempt preceded by the preparing message. -/
def resolveCommand (env : Env) : Option Path × List Effect :=
  match (detect_compiler env.which).1 with
  | some c => (some c, (detect_compiler env.which).2)
  | none =>
    ((install_toolchain env).1,
      (detect_compiler env.which).2 ++ [Effect.showMessage "Preparing LaTeX toolchain…"]
        ++ (install_toolchain env).2)

/-- The effects of the result branch at lines 1039-1048. -/
def outcomeTrace (env : Env) (auto : Bool) (pdf : Path) : List Effect :=
  match env.runOutcome with
  | RunOutcome.timeout =>
      if auto then [] else
        [Effect.messageBox "Timeout" "Compilation took too long and was stopped."]
  | RunOutcome.oserror =>
      if auto then [] else [Effect.messageBox "Error" "Failed to run compiler"]
  | RunOutcome.completed rc out =>
      if rc = 0 ∧ env.pdfExists = true then
        [Effect.showMessage "Compilation successful (preview refreshed)",
         Effect.clearErrors, Effect.loadPreview pdf]
      else
        let log := if out = "" then "Compilation failed without output" else out
        [Effect.showErrors log,
         Effect.markErrors (markedLines (extractErrorLineNumbers log)),
         Effect.showMessage (if auto then "Live preview compile failed – see error pane"
           else "Compilation failed – see error pane")]

/-- The effects from compiler resolution onwards (lines 991-1048). -/
def postResolveTrace (env : Env) (auto : Bool) (tex : Path) (texContent : Option String) :
    List Effect :=
  match (resolveCommand env).1 with
  | none =>
      (resolveCommand env).2 ++
        (if auto then [] else
          [Effect.messageBox "Compiler missing"
            "No LaTeX compiler was found or could be installed automatically."])
  | some command =>
      (resolveCommand env).2 ++ (if auto then [] else [Effect.showMessage "Compiling…"])
        ++ [Effect.run (buildCompileCmd command tex) tex.parent texContent]
        ++ outcomeTrace env auto (tex.withSuffix ".pdf")

/-- The state returned by every non-guarded compile attempt. -/
def finalStateOf (st : EditorState) (env : Env) : EditorState :=
  { st with currentFile := some (docPath st env),
            lastPdfOutput := some ((docPath st env).withSuffix ".pdf"),
            is_compiling := false }

/-- The full effect trace of a non-guarded compile attempt. -/
def compileTrace (st : EditorState) (fs : FS) (env : Env) (auto : Bool) : List Effect :=
  mkdirTrace st env ++ saveTrace st env ++
    postResolveTrace env auto (docPath st env)
      (FS.read (savedFs st fs env) (docPath st env))

/-- Master shape lemma: a compile attempt on an idle controller is
exactly the composition of the derived pieces. -/
theorem compile_pdf_eq (st : EditorState) (fs : FS) (env : Env) (auto : Bool)
    (h : st.is_compiling = false) :
    compile_pdf st fs env auto =
      ⟨finalStateOf st env, savedFs st fs env, compileTrace st fs env auto⟩ := by
  rcases st with ⟨cf, pr, lp, ic, txt⟩
  simp only at h
  subst h
  rcases cf with _ | p <;>
    rcases hw : env.writeOk with _ | _ <;>
      rcases hdet : (detect_compiler env.which).1 with _ | c <;>
        rcases hinst : (install_toolchain env).1 with _ | c2 <;>
          rcases hro : env.runOutcome with ⟨rc, out⟩ | _ | _ <;>
            simp [compile_pdf, save_file, savedFs, compileTrace, mkdirTrace, saveTrace,
              postResolveTrace, resolveCommand, outcomeTrace, finalStateOf, docPath,
              defaultBase, hw, hdet, hinst, hro] <;>
            (try (split_ifs <;> simp))

/-! ### Classification of trace segments -/

/-- Whether an effect is a compiler subprocess launch. -/
def isRun : Effect → Bool
  | Effect.run _ _ _ => true
  | _ => false

/-- Whether an effect is one of the result reports of lines 1039-1048:
clearing the error marks, loading the preview, or filling the error
pane. -/
def isReportEffect : Effect → Bool
  | Effect.clearErrors => true
  | Effect.loadPreview _ => true
  | Effect.showErrors _ => true
  | Effect.markErrors _ => true
  | _ => false

/-- Number of compiler subprocess launches recorded in a trace. -/
def runCount (tr : List Effect) : Nat := (tr.filter isRun).length

theorem mem_mkdirTrace {st : EditorState} {env : Env} {e : Effect}
    (h : e ∈ mkdirTrace st env) : ∃ p, e = Effect.mkdir p := by
  cases hc : st.currentFile <;> simp [mkdirTrace, hc] at h
  exact ⟨_, h⟩

theorem mem_saveTrace {st : EditorState} {env : Env} {e : Effect}
    (h : e ∈ saveTrace st env) :
    (∃ p t, e = Effect.fileWrite p t) ∨ (∃ m, e = Effect.showMessage m) ∨
      (∃ a b, e = Effect.messageBox a b) := by
  rcases hw : env.writeOk <;> simp [saveTrace, hw] at h
  · exact Or.inr (Or.inr ⟨_, _, h⟩)
  · rcases h with h | h
    · exact Or.inl ⟨_, _, h⟩
    · exact Or.inr (Or.inl ⟨_, h⟩)

theorem mem_detectGo {w : String → Option Path} {cs : List String} {e : Effect}
    (h : e ∈ (detectGo w cs).2) : ∃ c, e = Effect.whichQuery c := by
  induction cs with
  | nil => simp [detectGo] at h
  | cons c rest ih =>
    rcases hw : w c with _ | p <;> simp [detectGo, hw] at h
    · rcases h with h | h
      · exact ⟨c, h⟩
      · exact ih h
    · exact ⟨c, h⟩

theorem mem_installTrace {env : Env} {e : Effect}
    (h : e ∈ (install_toolchain env).2) :
    isRun e = false ∧ isReportEffect e = false := by
  simp only [install_toolchain, List.mem_append] at h
  rcases h with h | h
  · rcases hp : env.platform
    · rw [hp] at h
      rcases hq : env.which "winget" with _ | p <;> simp only [hq] at h <;>
        fin_cases h <;> exact ⟨rfl, rfl⟩
    · rw [hp] at h
      rcases hq : env.which "brew" with _ | p <;> simp only [hq] at h <;>
        fin_cases h <;> exact ⟨rfl, rfl⟩
    · rw [hp] at h
      rcases hq : env.which "apt-get" with _ | p <;> simp only [hq] at h <;>
        fin_cases h <;> exact ⟨rfl, rfl⟩
  · rcases mem_detectGo h with ⟨c, rfl⟩
    exact ⟨rfl, rfl⟩

theorem mem_resolveTrace {env : Env} {e : Effect}
    (h : e ∈ (resolveCommand env).2) :
    isRun e = false ∧ isReportEffect e = false := by
  rcases hd : (detect_compiler env.which).1 with _ | c <;>
    simp [resolveCommand, hd] at h
  · rcases h with h | h | h
    · rcases mem_detectGo h with ⟨c, rfl⟩
      exact ⟨rfl, rfl⟩
    · subst h
      exact ⟨rfl, rfl⟩
    · exact mem_installTrace h
  · rcases mem_detectGo h with ⟨c, rfl⟩
    exact ⟨rfl, rfl⟩

theorem mem_outcomeTrace {env : Env} {auto : Bool} {pdf : Path} {e : Effect}
    (h : e ∈ outcomeTrace env auto pdf) : isRun e = false := by
  rcases hro : env.runOutcome with ⟨rc, out⟩ | _ | _ <;>
    simp only [outcomeTrace, hro] at h
  · split_ifs at h <;> fin_cases h <;> rfl
  · rcases hauto : auto with _ | _
    · simp [hauto] at h
      subst h
      rfl
    · simp [hauto] at h
  · rcases hauto : auto with _ | _
    · simp [hauto] at h
      subst h
      rfl
    · simp [hauto] at h

theorem FS.read_write (fs : FS) (p : Path) (t : String) :
    FS.read (FS.write fs p t) p = some t := by
  simp [FS.read, FS.write]

/-- A result-report effect occurs in a compile trace exactly when the
outcome branch produced it: the earlier segments never contain one. -/
theorem report_mem_compileTrace (st : EditorState) (fs : FS) (env : Env) (auto : Bool)
    {cmd : Path} (hcmd : (resolveCommand env).1 = some cmd) {e : Effect}
    (he : isReportEffect e = true) :
    (e ∈ compileTrace st fs env auto ↔
      e ∈ outcomeTrace env auto ((docPath st env).withSuffix ".pdf")) := by
  have hm : e ∉ mkdirTrace st env := by
    intro h
    rcases mem_mkdirTrace h with ⟨p, rfl⟩
    simp [isReportEffect] at he
  have hs : e ∉ saveTrace st env := by
    intro h
    rcases mem_saveTrace h with ⟨p, t, rfl⟩ | ⟨m, rfl⟩ | ⟨a, b, rfl⟩ <;>
      simp [isReportEffect] at he
  have hr : e ∉ (resolveCommand env).2 := by
    intro h
    simp [(mem_resolveTrace h).2] at he
  have hrun : ∀ argv cwd c, e ≠ Effect.run argv cwd c := by
    rintro argv cwd c rfl
    simp [isReportEffect] at he
  have hmsg : ∀ m, e ≠ Effect.showMessage m := by
    rintro m rfl
    simp [isReportEffect] at he
  rcases auto with _ | _ <;>
    simp [compileTrace, postResolveTrace, hcmd, hm, hs, hr, hrun, hmsg]

/-- Claim C1: with the controller idle, a resolved compiler, and a
subprocess that completes, the compile attempt reports success (clears
the error marks and loads the preview of the artifact at the document
path with extension .pdf) iff the exit status is zero and the artifact
exists afterward; every other combination fills the error pane
instead. -/
theorem compile_reports_success_iff (st : EditorState) (fs : FS) (env : Env) (auto : Bool)
    (rc : Int) (out : String)
    (h : st.is_compiling = false)
    (hres : (resolveCommand env).1.isSome = true)
    (hro : env.runOutcome = RunOutcome.completed rc out) :
    ((Effect.clearErrors ∈ (compile_pdf st fs env auto).trace ∧
        Effect.loadPreview ((docPath st env).withSuffix ".pdf")
          ∈ (compile_pdf st fs env auto).trace)
      ↔ (rc = 0 ∧ env.pdfExists = true))
    ∧ ((∃ log, Effect.showErrors log ∈ (compile_pdf st fs env auto).trace)
      ↔ ¬(rc = 0 ∧ env.pdfExists = true)) := by
  rw [compile_pdf_eq st fs env auto h]
  obtain ⟨cmd, hcmd⟩ := Option.isSome_iff_exists.mp hres
  have hclear := report_mem_compileTrace st fs env auto hcmd (e := Effect.clearErrors) rfl
  have hload := report_mem_compileTrace st fs env auto hcmd
    (e := Effect.loadPreview ((docPath st env).withSuffix ".pdf")) rfl
  have herr : ∀ log, (Effect.showErrors log ∈ compileTrace st fs env auto ↔
      Effect.showErrors log ∈ outcomeTrace env auto ((docPath st env).withSuffix ".pdf")) :=
    fun log => report_mem_compileTrace st fs env auto hcmd (e := Effect.showErrors log) rfl
  by_cases hok : rc = 0 ∧ env.pdfExists = true
  · constructor
    · simp [hclear, hload, outcomeTrace, hro, hok]
    · simp only [herr]
      simp [outcomeTrace, hro, hok]
  · constructor
    · simp [hclear, hload, outcomeTrace, hro, hok]
    · simp only [herr]
      simp [outcomeTrace, hro, hok]

/-- Claim C2: while a compile is in progress, any further compile
trigger, manual or auto, is a silent no-op: state, filesystem and
effect trace are untouched, so no second subprocess is launched and
nothing is queued. -/
theorem compile_busy_is_noop (st : EditorState) (fs : FS) (env : Env) (auto : Bool)
    (h : st.is_compiling = true) :
    compile_pdf st fs env auto = ⟨st, fs, []⟩ := by
  simp [compile_pdf, h]

/-- Witness for C2 at a concrete busy state. -/
theorem compile_busy_is_noop_witness :
    ({ currentFile := none, projectRoot := none, lastPdfOutput := none,
       is_compiling := true, editorText := "x" } : EditorState).is_compiling = true
    ∧ compile_pdf
        { currentFile := none, projectRoot := none, lastPdfOutput := none,
          is_compiling := true, editorText := "x" } []
        { homeDir := ⟨["home"]⟩, platform := Platform.linux, saveDialog := none,
          writeOk := true, which := fun _ => none, whichAfter := fun _ => none,
          runOutcome := RunOutcome.timeout, pdfExists := false } true
      = ⟨{ currentFile := none, projectRoot := none, lastPdfOutput := none,
           is_compiling := true, editorText := "x" }, [], []⟩ :=
  ⟨rfl, compile_busy_is_noop _ _ _ _ rfl⟩

/-- Claim C10: every exit path of a non-guarded compile attempt
(missing compiler, timeout, launch failure, success, failure) returns
with the compiling flag reset to false. -/
theorem compile_resets_flag (st : EditorState) (fs : FS) (env : Env) (auto : Bool)
    (h : st.is_compiling = false) :
    (compile_pdf st fs env auto).st.is_compiling = false := by
  rw [compile_pdf_eq st fs env auto h]
  simp [finalStateOf]

/-- Claim C9: a compile attempt with no current document file does not
reject: it assigns main.tex under the project root (or under a PLATEX
directory in the home directory), creates that directory, and
proceeds against that path (in particular the save targets it). -/
theorem compile_assigns_default_doc (st : EditorState) (fs : FS) (env : Env) (auto : Bool)
    (h : st.is_compiling = false) (hcf : st.currentFile = none) :
    (compile_pdf st fs env auto).st.currentFile
        = some ((defaultBase st env).join "main.tex")
    ∧ Effect.mkdir (defaultBase st env) ∈ (compile_pdf st fs env auto).trace
    ∧ (env.writeOk = true →
        Effect.fileWrite ((defaultBase st env).join "main.tex") st.editorText
          ∈ (compile_pdf st fs env auto).trace) := by
  rw [compile_pdf_eq st fs env auto h]
  refine ⟨?_, ?_, ?_⟩
  · simp [finalStateOf, docPath, hcf, defaultBase]
  · simp [compileTrace, mkdirTrace, hcf]
  · intro hw
    simp [compileTrace, saveTrace, hw, docPath, hcf, defaultBase]

/-- Any subprocess-launch effect in the post-resolution trace carries
exactly the recorded tex-file content. -/
theorem run_mem_postResolveTrace {env : Env} {auto : Bool} {tex : Path}
    {content : Option String} {argv : List String} {cwd : Path} {c : Option String}
    (h : Effect.run argv cwd c ∈ postResolveTrace env auto tex content) :
    c = content := by
  rcases hcmd : (resolveCommand env).1 with _ | cmd <;>
    simp only [postResolveTrace, hcmd, List.mem_append] at h
  · rcases h with h | h
    · have := (mem_resolveTrace h).1
      simp [isRun] at this
    · rcases auto with _ | _ <;> simp at h
  · rcases h with ((h | h) | h) | h
    · have := (mem_resolveTrace h).1
      simp [isRun] at this
    · rcases auto with _ | _ <;> simp at h
    · simp at h
      exact h.2.2
    · have := mem_outcomeTrace h
      simp [isRun] at this

/-- Amended claim C3: every non-guarded compile attempt issues the
whole-file write of the in-memory text to the document path before
anything else, and when that write succeeds the compiler subprocess
reads exactly the in-memory text; a failed write however does not
stop the attempt (see the counterexample). -/
theorem compile_save_before_run (st : EditorState) (fs : FS) (env : Env) (auto : Bool)
    (h : st.is_compiling = false) (hw : env.writeOk = true) :
    Effect.fileWrite (docPath st env) st.editorText ∈ (compile_pdf st fs env auto).trace
    ∧ ∀ argv cwd content,
        Effect.run argv cwd content ∈ (compile_pdf st fs env auto).trace →
          content = some st.editorText := by
  rw [compile_pdf_eq st fs env auto h]
  constructor
  · simp [compileTrace, saveTrace, hw]
  · intro argv cwd content hmem
    simp only [compileTrace, List.mem_append] at hmem
    rcases hmem with (hmem | hmem) | hmem
    · rcases mem_mkdirTrace hmem with ⟨p, hp⟩
      simp at hp
    · rcases mem_saveTrace hmem with ⟨p, t, hp⟩ | ⟨m, hp⟩ | ⟨a, b, hp⟩ <;> simp at hp
    · rw [run_mem_postResolveTrace hmem]
      simp [savedFs, hw, FS.read_write]

/-- Claim C6: the subprocess argv is the latexmk form (-pdf
-interaction=nonstopmode -halt-on-error file) when the resolved
compiler basename contains latexmk, and the plain nonstopmode form
otherwise; and detection tries latexmk before pdflatex, so latexmk
wins when both are present. -/
theorem compile_command_shape (st : EditorState) (fs : FS) (env : Env) (auto : Bool)
    (cmd : Path)
    (h : st.is_compiling = false)
    (hcmd : (resolveCommand env).1 = some cmd) :
    (strContainsSub (asciiLower (Path.name cmd)) "latexmk" = true →
      ∃ content, Effect.run
        [cmd.str, "-pdf", "-interaction=nonstopmode", "-halt-on-error", (docPath st env).name]
        (docPath st env).parent content ∈ (compile_pdf st fs env auto).trace)
    ∧ (strContainsSub (asciiLower (Path.name cmd)) "latexmk" = false →
      ∃ content, Effect.run [cmd.str, "-interaction=nonstopmode", (docPath st env).name]
        (docPath st env).parent content ∈ (compile_pdf st fs env auto).trace)
    ∧ (∀ (w : String → Option Path) (p q : Path),
        w "latexmk" = some p → w "pdflatex" = some q → (detect_compiler w).1 = some p) := by
  rw [compile_pdf_eq st fs env auto h]
  refine ⟨?_, ?_, ?_⟩
  · intro hlm
    refine ⟨FS.read (savedFs st fs env) (docPath st env), ?_⟩
    simp [compileTrace, postResolveTrace, hcmd, buildCompileCmd, hlm]
  · intro hlm
    refine ⟨FS.read (savedFs st fs env) (docPath st env), ?_⟩
    simp [compileTrace, postResolveTrace, hcmd, buildCompileCmd, hlm]
  · intro w p q hp _
    simp [detect_compiler, compilerCandidates, detectGo, hp]

/-- Amended claim C5: the code keeps no compiler cache. Every
non-guarded compile attempt searches the executable path afresh
(querying latexmk first), and the install attempt happens exactly on
the attempts where that fresh search finds nothing. -/
theorem compile_reresolves_each_attempt (st : EditorState) (fs : FS) (env : Env)
    (auto : Bool) (h : st.is_compiling = false) :
    Effect.whichQuery "latexmk" ∈ (compile_pdf st fs env auto).trace
    ∧ (Effect.showMessage "Preparing LaTeX toolchain…" ∈ (resolveCommand env).2
        ↔ (detect_compiler env.which).1 = none) := by
  rw [compile_pdf_eq st fs env auto h]
  have hq : Effect.whichQuery "latexmk" ∈ (detect_compiler env.which).2 := by
    rcases hw : env.which "latexmk" with _ | p <;>
      simp [detect_compiler, compilerCandidates, detectGo, hw]
  constructor
  · have hr : Effect.whichQuery "latexmk" ∈ (resolveCommand env).2 := by
      rcases hd : (detect_compiler env.which).1 with _ | c <;>
        simp [resolveCommand, hd, hq]
    rcases hcmd : (resolveCommand env).1 with _ | cmd <;>
      simp [compileTrace, postResolveTrace, hcmd, hr]
  · constructor
    · intro hmem
      rcases hd : (detect_compiler env.which).1 with _ | c
      · rfl
      · rw [resolveCommand] at hmem
        rw [hd] at hmem
        rcases mem_detectGo hmem with ⟨c2, hc2⟩
        cases hc2
    · intro hd
      simp [resolveCommand, hd]

/-- Amended claim C8: in auto mode a missing-compiler outcome and a
timeout outcome both return without adding any effect after the point
of failure — no blocking dialog, but also no passive status message
about the outcome; in manual mode each appends exactly one blocking
dialog. In every case at most one compiler subprocess is launched, so
a timed-out compile is never retried. -/
theorem compile_auto_mode_silent (st : EditorState) (fs : FS)
    (h : st.is_compiling = false) :
    (∀ env : Env, env.runOutcome = RunOutcome.timeout →
      ∀ cmd, (resolveCommand env).1 = some cmd →
        (compile_pdf st fs env true).trace
          = mkdirTrace st env ++ saveTrace st env ++ (resolveCommand env).2
              ++ [Effect.run (buildCompileCmd cmd (docPath st env)) (docPath st env).parent
                    (FS.read (savedFs st fs env) (docPath st env))]
        ∧ (compile_pdf st fs env false).trace
          = mkdirTrace st env ++ saveTrace st env ++ (resolveCommand env).2
              ++ [Effect.showMessage "Compiling…"]
              ++ [Effect.run (buildCompileCmd cmd (docPath st env)) (docPath st env).parent
                    (FS.read (savedFs st fs env) (docPath st env))]
              ++ [Effect.messageBox "Timeout" "Compilation took too long and was stopped."])
    ∧ (∀ env : Env, (resolveCommand env).1 = none →
        (compile_pdf st fs env true).trace
          = mkdirTrace st env ++ saveTrace st env ++ (resolveCommand env).2
        ∧ (compile_pdf st fs env false).trace
          = mkdirTrace st env ++ saveTrace st env ++ (resolveCommand env).2
              ++ [Effect.messageBox "Compiler missing"
                    "No LaTeX compiler was found or could be installed automatically."])
    ∧ (∀ (env : Env) (auto : Bool), runCount (compile_pdf st fs env auto).trace ≤ 1) := by
  refine ⟨?_, ?_, ?_⟩
  · intro env hro cmd hcmd
    constructor <;>
      · rw [compile_pdf_eq st fs env _ h]
        simp [compileTrace, postResolveTrace, hcmd, outcomeTrace, hro]
  · intro env hcmd
    constructor <;>
      · rw [compile_pdf_eq st fs env _ h]
        simp [compileTrace, postResolveTrace, hcmd]
  · intro env auto
    rw [compile_pdf_eq st fs env auto h]
    have cm : ∀ (l : List Effect), (∀ e ∈ l, isRun e = false) → l.filter isRun = [] :=
      fun l hl => List.filter_eq_nil_iff.mpr (fun e he => by simp [hl e he])
    have c1 : (mkdirTrace st env).filter isRun = [] :=
      cm _ (fun e he => by rcases mem_mkdirTrace he with ⟨p, rfl⟩; rfl)
    have c2 : (saveTrace st env).filter isRun = [] :=
      cm _ (fun e he => by
        rcases mem_saveTrace he with ⟨p, t, rfl⟩ | ⟨m, rfl⟩ | ⟨a, b, rfl⟩ <;> rfl)
    have c3 : ((resolveCommand env).2).filter isRun = [] :=
      cm _ (fun e he => (mem_resolveTrace he).1)
    have c4 : ∀ pdf, (outcomeTrace env auto pdf).filter isRun = [] :=
      fun pdf => cm _ (fun e he => mem_outcomeTrace he)
    unfold runCount
    rcases hcmd : (resolveCommand env).1 with _ | cmd <;>
      rcases auto with _ | _ <;>
        simp [compileTrace, postResolveTrace, hcmd, List.filter_append, c1, c2, c3, c4, isRun]

/-- Claim C4: the extraction scans each log line for l. followed by
digits and contributes one 1-indexed line per matching log line; for
a log with an Undefined-control-sequence line followed later by
l.12, surrounded by arbitrary lines with no l.N marker, the result
is exactly the line 12, and the 0-indexed highlight target is 11. -/
theorem error_extraction_spec (pre mid post : List String)
    (hpre : ∀ l ∈ pre, findLNum l.toList = none)
    (hmid : ∀ l ∈ mid, findLNum l.toList = none)
    (hpost : ∀ l ∈ post, findLNum l.toList = none) :
    extractFromLines (pre ++ ["! Undefined control sequence"] ++ mid ++ ["l.12 \\foo"] ++ post)
      = [12]
    ∧ markedLines [12] = [11]
    ∧ extractErrorLineNumbers "! Undefined control sequence\nl.12 \\foo" = [12] := by
  have h1 : findLNum "! Undefined control sequence".toList = none := by decide
  have h2 : findLNum "l.12 \\foo".toList = some 12 := by decide
  refine ⟨?_, rfl, by decide⟩
  simp only [extractFromLines, List.filterMap_append, List.filterMap_cons]
  rw [List.filterMap_eq_nil_iff.mpr hpre, List.filterMap_eq_nil_iff.mpr hmid,
    List.filterMap_eq_nil_iff.mpr hpost, h1, h2]
  simp

/-- Witness for C4 with concrete surrounding lines. -/
theorem error_extraction_spec_witness :
    extractFromLines (["This is pdfTeX, Version 3"] ++ ["! Undefined control sequence"]
        ++ ["<recently read> x"] ++ ["l.12 \\foo"] ++ ["? "]) = [12]
    ∧ markedLines [12] = [11]
    ∧ extractErrorLineNumbers "! Undefined control sequence\nl.12 \\foo" = [12] :=
  error_extraction_spec _ _ _ (by decide) (by decide) (by decide)

/-! ### Live-preview debounce (lines 365-369, 773-784) -/

/-- The single-shot timer interval set at line 368, in milliseconds. -/
def livePreviewInterval : Nat := 500

/-- _schedule_live_preview (lines 773-776): when live preview is
enabled, an edit (re)starts the single-shot timer, arming its
deadline at now + T; when disabled the pending state is untouched. -/
def scheduleLivePreview (enabled : Bool) (deadline : Option Nat) (now T : Nat) : Option Nat :=
  if enabled then some (now + T) else deadline

/-- Single-shot timer semantics over an enabled burst of edit times:
an edit at t arms the deadline t + T; an armed deadline fires only if
the next edit does not come before it; the deadline armed by the last
edit always fires. Returns the fire times. -/
def debounceFires (T : Nat) : List Nat → List Nat
  | [] => []
  | [t] => [t + T]
  | t1 :: t2 :: rest => (if t1 + T ≤ t2 then [t1 + T] else []) ++ debounceFires T (t2 :: rest)

/-- Each timer expiry invokes compile_pdf with auto := True
(the lambda connected at line 369); recorded as (time, auto). -/
def debounceInvocations (T : Nat) (edits : List Nat) : List (Nat × Bool) :=
  (debounceFires T edits).map (fun t => (t, true))

/-- Edit times in order with consecutive edits less than T apart. -/
def isBurst (T : Nat) : List Nat → Bool
  | [] => true
  | [_] => true
  | t1 :: t2 :: rest => (decide (t1 ≤ t2) && decide (t2 < t1 + T)) && isBurst T (t2 :: rest)

theorem debounceFires_burst (T : Nat) (hT : 0 < T) :
    ∀ (edits : List Nat) (hne : edits ≠ []), isBurst T edits = true →
      debounceFires T edits = [edits.getLast hne + T]
      ∧ ∀ e ∈ edits, e < edits.getLast hne + T := by
  intro edits
  induction edits with
  | nil => intro hne; exact absurd rfl hne
  | cons t rest ih =>
    intro hne hb
    cases rest with
    | nil =>
      refine ⟨rfl, ?_⟩
      intro e he
      simp at he
      subst he
      simp [List.getLast]
      omega
    | cons t2 rest2 =>
      have h2 : (t2 :: rest2 : List Nat) ≠ [] := by simp
      rw [isBurst] at hb
      simp only [Bool.and_eq_true, decide_eq_true_eq] at hb
      obtain ⟨⟨hle, hlt⟩, hb2⟩ := hb
      have ihr := ih h2 hb2
      have hgl : (t :: t2 :: rest2).getLast hne = (t2 :: rest2).getLast h2 :=
        List.getLast_cons h2
      constructor
      · rw [debounceFires, if_neg (by omega), List.nil_append, ihr.1, hgl]
      · intro e he
        rcases List.mem_cons.mp he with rfl | he2
        · have ht2 : t2 < (t2 :: rest2).getLast h2 + T := ihr.2 t2 (by simp)
          rw [hgl]
          omega
        · rw [hgl]
          exact ihr.2 e he2

/-- Claim C7: for a nonempty burst of edits each less than T apart
(live preview enabled, T positive), the debounced timer produces
exactly one compile invocation, in auto mode, fired T after the last
edit; in particular no invocation occurs at or before any edit of the
burst, so continuous typing defers compilation indefinitely. -/
theorem debounce_coalesces (T : Nat) (edits : List Nat) (hT : 0 < T)
    (hne : edits ≠ []) (hburst : isBurst T edits = true) :
    debounceInvocations T edits = [(edits.getLast hne + T, true)]
    ∧ ∀ e ∈ edits, e < edits.getLast hne + T := by
  obtain ⟨h1, h2⟩ := debounceFires_burst T hT edits hne hburst
  exact ⟨by simp [debounceInvocations, h1], h2⟩

/-! ### Concrete fixtures for witnesses and counterexamples -/

/-- A concrete document path. -/
def wDoc : Path := ⟨["home", "u", "doc.tex"]⟩

/-- A concrete resolved latexmk executable path. -/
def wLatexmk : Path := ⟨["usr", "bin", "latexmk"]⟩

/-- A concrete idle editor state with unsaved text. -/
def wSt : EditorState :=
  { currentFile := some wDoc, projectRoot := none, lastPdfOutput := none,
    is_compiling := false, editorText := "hello" }

/-- The same state with no current document file. -/
def wStNoFile : EditorState := { wSt with currentFile := none }

/-- A concrete environment: latexmk on the path, writes succeed, the
subprocess exits 0 and the artifact appears. -/
def wEnv : Env :=
  { homeDir := ⟨["home", "u"]⟩, platform := Platform.linux, saveDialog := none,
    writeOk := true, which := fun s => if s = "latexmk" then some wLatexmk else none,
    whichAfter := fun _ => none,
    runOutcome := RunOutcome.completed 0 "ok", pdfExists := true }

/-- Witness for C1 at the concrete success environment. -/
theorem compile_reports_success_iff_witness :
    ((Effect.clearErrors ∈ (compile_pdf wSt [] wEnv false).trace ∧
        Effect.loadPreview ((docPath wSt wEnv).withSuffix ".pdf")
          ∈ (compile_pdf wSt [] wEnv false).trace)
      ↔ ((0 : Int) = 0 ∧ wEnv.pdfExists = true))
    ∧ ((∃ log, Effect.showErrors log ∈ (compile_pdf wSt [] wEnv false).trace)
      ↔ ¬((0 : Int) = 0 ∧ wEnv.pdfExists = true)) :=
  compile_reports_success_iff wSt [] wEnv false 0 "ok" rfl (by decide) rfl

/-- Witness for C10 at a concrete input. -/
theorem compile_resets_flag_witness :
    wSt.is_compiling = false ∧ (compile_pdf wSt [] wEnv true).st.is_compiling = false :=
  ⟨rfl, compile_resets_flag wSt [] wEnv true rfl⟩

/-- Witness for C9 at a concrete fileless state. -/
theorem compile_assigns_default_doc_witness :
    (compile_pdf wStNoFile [] wEnv false).st.currentFile
        = some ((defaultBase wStNoFile wEnv).join "main.tex")
    ∧ Effect.mkdir (defaultBase wStNoFile wEnv) ∈ (compile_pdf wStNoFile [] wEnv false).trace
    ∧ (wEnv.writeOk = true →
        Effect.fileWrite ((defaultBase wStNoFile wEnv).join "main.tex") wStNoFile.editorText
          ∈ (compile_pdf wStNoFile [] wEnv false).trace) :=
  compile_assigns_default_doc wStNoFile [] wEnv false rfl rfl

/-- Witness for the amended C3 at a concrete input. -/
theorem compile_save_before_run_witness :
    Effect.fileWrite (docPath wSt wEnv) wSt.editorText ∈ (compile_pdf wSt [] wEnv false).trace
    ∧ ∀ argv cwd content,
        Effect.run argv cwd content ∈ (compile_pdf wSt [] wEnv false).trace →
          content = some wSt.editorText :=
  compile_save_before_run wSt [] wEnv false rfl rfl

/-- Counterexample to C3 as stated: with the document on disk holding
old text, the whole-file write failing with an OSError (surfaced as a
dialog at line 965), the compile attempt still launches the compiler,
which reads the stale on-disk text rather than the in-memory text. -/
theorem compile_stale_read_cex :
    wSt.editorText = "hello"
    ∧ Effect.run
        ["usr/bin/latexmk", "-pdf", "-interaction=nonstopmode", "-halt-on-error", "doc.tex"]
        ⟨["home", "u"]⟩ (some "old")
        ∈ (compile_pdf wSt [(wDoc, "old")] { wEnv with writeOk := false } false).trace :=
  ⟨rfl, by decide⟩

/-- Witness for the amended C5 at a concrete input. -/
theorem compile_reresolves_each_attempt_witness :
    Effect.whichQuery "latexmk" ∈ (compile_pdf wSt [] wEnv false).trace
    ∧ (Effect.showMessage "Preparing LaTeX toolchain…" ∈ (resolveCommand wEnv).2
        ↔ (detect_compiler wEnv.which).1 = none) :=
  compile_reresolves_each_attempt wSt [] wEnv false rfl

/-- Counterexample to C5 as stated: the first compile attempt resolves
latexmk successfully and succeeds, yet the immediately following
attempt still queries the executable search path for latexmk — the
code caches nothing (EditorWindow stores no compiler attribute; line
991 calls _detect_compiler unconditionally). -/
theorem compile_researches_cex :
    (compile_pdf wSt [] wEnv false).st.is_compiling = false
    ∧ Effect.whichQuery "latexmk" ∈ (compile_pdf wSt [] wEnv false).trace
    ∧ Effect.loadPreview ⟨["home", "u", "doc.pdf"]⟩ ∈ (compile_pdf wSt [] wEnv false).trace
    ∧ Effect.whichQuery "latexmk" ∈
        (compile_pdf (compile_pdf wSt [] wEnv false).st
          (compile_pdf wSt [] wEnv false).fs wEnv false).trace := by
  refine ⟨rfl, by decide, by decide, by decide⟩

/-- Witness for C6 at a concrete input where latexmk resolved. -/
theorem compile_command_shape_witness :
    (strContainsSub (asciiLower (Path.name wLatexmk)) "latexmk" = true →
      ∃ content, Effect.run
        [wLatexmk.str, "-pdf", "-interaction=nonstopmode", "-halt-on-error",
          (docPath wSt wEnv).name]
        (docPath wSt wEnv).parent content ∈ (compile_pdf wSt [] wEnv false).trace)
    ∧ (strContainsSub (asciiLower (Path.name wLatexmk)) "latexmk" = false →
      ∃ content, Effect.run [wLatexmk.str, "-interaction=nonstopmode", (docPath wSt wEnv).name]
        (docPath wSt wEnv).parent content ∈ (compile_pdf wSt [] wEnv false).trace)
    ∧ (∀ (w : String → Option Path) (p q : Path),
        w "latexmk" = some p → w "pdflatex" = some q → (detect_compiler w).1 = some p) :=
  compile_command_shape wSt [] wEnv false wLatexmk rfl (by decide)

/-- Witness for the amended C8 at a concrete state. -/
theorem compile_auto_mode_silent_witness :
    (∀ env : Env, env.runOutcome = RunOutcome.timeout →
      ∀ cmd, (resolveCommand env).1 = some cmd →
        (compile_pdf wSt [] env true).trace
          = mkdirTrace wSt env ++ saveTrace wSt env ++ (resolveCommand env).2
              ++ [Effect.run (buildCompileCmd cmd (docPath wSt env)) (docPath wSt env).parent
                    (FS.read (savedFs wSt [] env) (docPath wSt env))]
        ∧ (compile_pdf wSt [] env false).trace
          = mkdirTrace wSt env ++ saveTrace wSt env ++ (resolveCommand env).2
              ++ [Effect.showMessage "Compiling…"]
              ++ [Effect.run (buildCompileCmd cmd (docPath wSt env)) (docPath wSt env).parent
                    (FS.read (savedFs wSt [] env) (docPath wSt env))]
              ++ [Effect.messageBox "Timeout" "Compilation took too long and was stopped."])
    ∧ (∀ env : Env, (resolveCommand env).1 = none →
        (compile_pdf wSt [] env true).trace
          = mkdirTrace wSt env ++ saveTrace wSt env ++ (resolveCommand env).2
        ∧ (compile_pdf wSt [] env false).trace
          = mkdirTrace wSt env ++ saveTrace wSt env ++ (resolveCommand env).2
              ++ [Effect.messageBox "Compiler missing"
                    "No LaTeX compiler was found or could be installed automatically."])
    ∧ (∀ (env : Env) (auto : Bool), runCount (compile_pdf wSt [] env auto).trace ≤ 1) :=
  compile_auto_mode_silent wSt [] rfl

/-- Counterexample to C8 as stated: in auto mode a timed-out compile
produces no status message about the outcome at all — the trace ends
at the subprocess launch (lines 1028-1032 show nothing when auto), so
the outcome is not downgraded to a passive status message; it is
silent. -/
theorem auto_timeout_silent_cex :
    (compile_pdf wSt [] { wEnv with runOutcome := RunOutcome.timeout } true).trace
      = [Effect.fileWrite wDoc "hello",
         Effect.showMessage "Saved to home/u/doc.tex",
         Effect.whichQuery "latexmk",
         Effect.run
           ["usr/bin/latexmk", "-pdf", "-interaction=nonstopmode", "-halt-on-error", "doc.tex"]
           ⟨["home", "u"]⟩ (some "hello")] := by
  decide

/-- Witness for C7 at a concrete burst of three edits. -/
theorem debounce_coalesces_witness :
    debounceInvocations livePreviewInterval [0, 300, 700] = [(1200, true)]
    ∧ ∀ e ∈ [0, 300, 700], e < 1200 := by
  have h := debounce_coalesces livePreviewInterval [0, 300, 700] (by decide) (by decide)
    (by decide)
  simpa [livePreviewInterval, List.getLast] using h

end PLATEX
